import Mathlib

/-!
Verification of the Career Spark chat application's conversation-state and
retry logic, shallowly embedded from the TypeScript source (the `Chat`
component: `fetchWithRetry`, `handleSubmit`, `handleDeleteMessage`,
`handleRegenerate`, and the position-to-identifier map `messageIds`).
JavaScript `Map<number, string>` values are modelled as functions
`Nat → Option String`; asynchronous network outcomes are passed explicitly
as environment records; emitted remote calls are recorded as an effect list.
-/

/-- Role of a chat message: the source's union type `"user" | "assistant"`. -/
inductive Role where
  | user
  | assistant
deriving DecidableEq, Repr

/-- One chat turn: the source's `Message` record `{ id?, role, content }`.
`id` is the server-assigned identifier, absent for unpersisted turns. -/
structure Message where
  id : Option String
  role : Role
  content : String
deriving DecidableEq, Repr

/-- The `messageIds` state: JavaScript `Map<number, string>` modelled as a
function from positions to optional identifiers. -/
def IdMap : Type := Nat → Option String

/-- `Map.set`: install an entry, replacing any previous one at that key. -/
def mapSet (m : IdMap) (k : Nat) (v : String) : IdMap :=
  fun n => if n = k then some v else m n

/-- `Map.delete`: remove the entry at a key. -/
def mapDelete (m : IdMap) (k : Nat) : IdMap :=
  fun n => if n = k then none else m n

/-- `new Map()`: the empty map. -/
def emptyIdMap : IdMap := fun _ => none

/-- JavaScript truthiness of a `string | null | undefined` value:
`null`/`undefined` and the empty string are falsy. -/
def jsTruthy : Option String → Bool
  | none => false
  | some s => !s.isEmpty

/-- JavaScript `String.prototype.trim`, implemented over the character
list so that it evaluates by kernel reduction. -/
def jsWhitespace (c : Char) : Bool :=
  c == ' ' || c == '\t' || c == '\n' || c == '\r'

/-- Strip leading and trailing whitespace, as `input.trim()` does. -/
def jsTrim (s : String) : String :=
  String.mk (((s.data.dropWhile jsWhitespace).reverse.dropWhile jsWhitespace).reverse)

/-- JavaScript `String.prototype.includes` for a nonempty pattern:
`s.includes(pat)` holds iff `pat` occurs in `s`, which `splitOn` detects by
producing at least two fragments. -/
def includesSubstr (s pat : String) : Bool :=
  decide (2 ≤ (s.splitOn pat).length)

/-- The retry client's view of one `fetch` attempt: either a response with
an HTTP status, or a thrown transport error carrying its message. -/
inductive FetchResult where
  | resp (status : Nat)
  | err (message : String)
deriving DecidableEq, Repr

/-- How a run of `fetchWithRetry` can fail: rethrowing the last transport
error, or falling off the loop (`"Max retries exceeded"`). -/
inductive RetryError where
  | transport (message : String)
  | maxRetriesExceeded
deriving DecidableEq, Repr

/-- The retryable-status test from the source:
`response.status === 429 || (response.status >= 500 && response.status < 600)`. -/
def retryableStatus (status : Nat) : Bool :=
  status == 429 || (decide (500 ≤ status) && decide (status < 600))

/-- The transient-transport-error test from the source:
`error.message.includes("Failed to fetch") || error.message.includes("Network")`. -/
def transientTransportError (msg : String) : Bool :=
  includesSubstr msg "Failed to fetch" || includesSubstr msg "Network"

/-- The body of `fetchWithRetry`'s `for` loop. `attempt i` is the result of
the `fetch` on iteration `i`; `delays` accumulates the milliseconds slept
(`Math.pow(2, i) * 1000` before each retry). `fuel` is a structural bound on
the remaining iterations; the caller passes `fuel = retries` so the
`fuel = 0` case coincides with the loop exhausting its range, where the
source throws `"Max retries exceeded"`. -/
def fetchWithRetryGo (attempt : Nat → FetchResult) (retries : Nat) :
    Nat → Nat → List Nat → Except RetryError Nat × List Nat
  | 0, _, delays => (Except.error RetryError.maxRetriesExceeded, delays)
  | fuel + 1, i, delays =>
    if i < retries then
      match attempt i with
      | FetchResult.resp status =>
        if retryableStatus status && decide (i < retries - 1) then
          fetchWithRetryGo attempt retries fuel (i + 1) (delays ++ [2 ^ i * 1000])
        else
          (Except.ok status, delays)
      | FetchResult.err msg =>
        if i == retries - 1 then
          (Except.error (RetryError.transport msg), delays)
        else if transientTransportError msg then
          fetchWithRetryGo attempt retries fuel (i + 1) (delays ++ [2 ^ i * 1000])
        else
          (Except.error (RetryError.transport msg), delays)
    else
      (Except.error RetryError.maxRetriesExceeded, delays)

/-- `fetchWithRetry(url, options, retries)`: run the retry loop from
iteration 0. Returns the surfaced response status (or error) together with
the list of backoff delays slept, in milliseconds. -/
def fetchWithRetry (attempt : Nat → FetchResult) (retries : Nat) :
    Except RetryError Nat × List Nat :=
  fetchWithRetryGo attempt retries retries 0 []

/-- One role-tagged turn of the model request payload: an element of the
`contents` array, with its single `parts` entry flattened to `text`. -/
structure ModelTurn where
  role : String
  text : String
deriving DecidableEq, Repr

/-- Remote calls observable from the handlers: session-row creation,
message-row inserts, message-row deletes, model requests, and the
first-exchange title update. -/
inductive Effect where
  | createChat (title : String)
  | insertMessage (role : Role) (content : String)
  | remoteDelete (messageId : String)
  | modelRequest (contents : List ModelTurn)
  | updateTitle (title : String)

/-- Map a stored message to a model request turn:
`{ role: msg.role === "user" ? "user" : "model", parts: [{ text: msg.content }] }`. -/
def toModelTurn (m : Message) : ModelTurn :=
  { role := match m.role with
      | Role.user => "user"
      | Role.assistant => "model",
    text := m.content }

/-- The `contents` array built by `handleSubmit`: every prior message
mapped to a turn, then the new user turn appended. -/
def buildContents (priorMessages : List Message) (userMessage : String) : List ModelTurn :=
  priorMessages.map toModelTurn ++ [{ role := "user", text := userMessage }]

/-- The component state relevant to the claims: the `useState` cells
`messages`, `input`, `isLoading`, `currentChatId`, `isSaving`,
`messageIds`, and `lastUserMessage`. -/
structure ChatState where
  messages : List Message
  input : String
  isLoading : Bool
  currentChatId : Option String
  isSaving : Bool
  messageIds : IdMap
  lastUserMessage : String

/-- The welcome text installed for a fresh or empty chat. -/
def WELCOME_TEXT : String :=
  "Hi! I\u0027m Career Spark, your AI career assistant. I can help you draft cover letters, prepare for interviews, update your resume, and more. What can I help you with today?"

/-- The synthetic greeting message of a fresh chat (no identifier). -/
def welcomeMessage : Message :=
  { id := none, role := Role.assistant, content := WELCOME_TEXT }

/-- The fixed fallback assistant text used when the model response has no
usable candidate text. -/
def FALLBACK_RESPONSE : String :=
  "I\u0027m sorry, I couldn\u0027t generate a response. Please try again."

/-- The response-text extraction
`data.candidates?.[0]?.content?.parts?.[0]?.text || FALLBACK`: the chain is
modelled by an optional candidate text, and JavaScript `||` falls through to
the fallback when the text is absent or the empty string (falsy). -/
def extractAiResponse (candidateText : Option String) : String :=
  match candidateText with
  | none => FALLBACK_RESPONSE
  | some t => if t.isEmpty then FALLBACK_RESPONSE else t

/-- Title derivation from the first user message:
`userMessage.length > 50 ? userMessage.substring(0, 50) + "..." : userMessage`. -/
def deriveTitle (userMessage : String) : String :=
  if userMessage.length > 50 then String.mk (userMessage.data.take 50) ++ "..." else userMessage

/-- Rebuilding the position-to-identifier map from a message sequence, as
`loadChatMessages` and the identifier-bearing branch of `handleDeleteMessage`
do: `msgs.forEach((msg, i) => { if (msg.id) newIdsMap.set(i, msg.id) })`. -/
def rebuildIds (msgs : List Message) : IdMap := fun i =>
  match msgs.get? i with
  | some msg => if jsTruthy msg.id then msg.id else none
  | none => none

/-- The splice `messages.filter((_, i) => i !== index)`. -/
def removeAt (msgs : List Message) (index : Nat) : List Message :=
  (msgs.enum.filter (fun p => p.1 ≠ index)).map Prod.snd

/-- `handleDeleteMessage(index)`. `remoteDeleteOk` is the outcome of the
awaited remote `deleteMessage` call. With no known identifier at `index`
(absent or empty, both falsy), the message is spliced out locally and the
identifier map is left untouched. With a known identifier, the remote
delete runs first: on failure the state is returned unchanged (only a toast
is shown); on success the message is spliced out and the map rebuilt. -/
def handleDeleteMessage (s : ChatState) (index : Nat) (remoteDeleteOk : Bool) :
    ChatState × List Effect :=
  match s.messageIds index with
  | none => ({ s with messages := removeAt s.messages index }, [])
  | some mid =>
    if mid.isEmpty then
      ({ s with messages := removeAt s.messages index }, [])
    else if remoteDeleteOk then
      let updatedMessages := removeAt s.messages index
      ({ s with messages := updatedMessages, messageIds := rebuildIds updatedMessages },
        [Effect.remoteDelete mid])
    else
      (s, [Effect.remoteDelete mid])

/-- The reconciliation step applied when a `saveMessage` write completes:
`if (savedId) { setMessageIds((prev) => new Map(prev).set(index, savedId)) }`.
It is applied to whatever state holds at completion time; there is no check
that a message still exists at `index`. -/
def reconcileMessageId (s : ChatState) (index : Nat) (savedId : Option String) : ChatState :=
  match savedId with
  | none => s
  | some mid =>
    if mid.isEmpty then s
    else { s with messageIds := mapSet s.messageIds index mid }

/-- The asynchronous outcomes consumed by one run of `handleSubmit`:
the chat-row creation result, the module-level API key, the user-save and
assistant-save identifiers (`null` on failed insert), and the model call
result (`Except.error` for a non-2xx response or exhausted transport
failure, `Except.ok` with the optional first-candidate text otherwise). -/
structure SubmitEnv where
  createChatResult : Except String String
  apiKey : String
  saveUserResult : Option String
  modelResult : Except String (Option String)
  saveAssistantResult : Option String

/-- The tail of `handleSubmit` after a chat id is in hand: save and
reconcile the user message, check the API key, issue the model request, and
integrate the response (or the synthetic error message) into the log. -/
def handleSubmitCore (s1 : ChatState) (origMessages : List Message) (env : SubmitEnv)
    (userMessage : String) (userMessageIndex : Nat) (newMessages : List Message)
    (chatId : String) (effs : List Effect) : ChatState × List Effect :=
  let effs := effs ++ [Effect.insertMessage Role.user userMessage]
  let s2 := reconcileMessageId s1 userMessageIndex env.saveUserResult
  if (jsTrim env.apiKey).isEmpty then
    ({ s2 with isLoading := false }, effs)
  else
    let effs := effs ++ [Effect.modelRequest (buildContents origMessages userMessage)]
    match env.modelResult with
    | Except.ok candidateText =>
      let aiResponse := extractAiResponse candidateText
      let assistantMessageIndex := newMessages.length
      let finalMessages := newMessages ++ [{ id := none, role := Role.assistant, content := aiResponse }]
      let s3 := { s2 with messages := finalMessages }
      let effs := effs ++ [Effect.insertMessage Role.assistant aiResponse]
      let s4 := reconcileMessageId s3 assistantMessageIndex env.saveAssistantResult
      let effs := if origMessages.length == 1 then effs ++ [Effect.updateTitle (deriveTitle userMessage)] else effs
      ({ s4 with isLoading := false }, effs)
    | Except.error errMsg =>
      let errContent := "Sorry, I ran into an error: " ++ errMsg
      let errorMessages := newMessages ++ [{ id := none, role := Role.assistant, content := errContent }]
      let s3 := { s2 with messages := errorMessages }
      if chatId.isEmpty then
        ({ s3 with isLoading := false }, effs)
      else
        let effs := effs ++ [Effect.insertMessage Role.assistant errContent]
        let s4 := reconcileMessageId s3 (errorMessages.length - 1) env.saveAssistantResult
        ({ s4 with isLoading := false }, effs)

/-- `handleSubmit(e)`: guard on empty trimmed input or an in-flight
submission; optimistically append the trimmed user message; create the chat
row when no session is active (aborting on failure); then continue in
`handleSubmitCore`. -/
def handleSubmit (s : ChatState) (env : SubmitEnv) : ChatState × List Effect :=
  if (jsTrim s.input).isEmpty || s.isLoading then (s, [])
  else
    let userMessage := jsTrim s.input
    let userMessageIndex := s.messages.length
    let newMessages := s.messages ++ [{ id := none, role := Role.user, content := userMessage }]
    let s1 : ChatState :=
      { s with input := "", lastUserMessage := userMessage,
               messages := newMessages, isLoading := true }
    match s.currentChatId with
    | some cid =>
      handleSubmitCore s1 s.messages env userMessage userMessageIndex newMessages cid []
    | none =>
      let title := deriveTitle userMessage
      match env.createChatResult with
      | Except.error _ =>
        ({ s1 with isLoading := false, isSaving := false }, [Effect.createChat title])
      | Except.ok cid =>
        handleSubmitCore { s1 with currentChatId := some cid, isSaving := false }
          s.messages env userMessage userMessageIndex newMessages cid
          [Effect.createChat title]

/-- The asynchronous outcomes consumed by one run of `handleRegenerate`:
the API key, the model call result, and the assistant-save identifier. -/
structure RegenEnv where
  apiKey : String
  modelResult : Except String (Option String)
  saveAssistantResult : Option String

/-- The backwards scan `for (let i = start; i >= 0; i--)` looking for the
nearest message with role `"user"` at position `≤ start`. -/
def findLastUserFrom (messages : List Message) : Nat → Option Nat
  | 0 =>
    if (messages.get? 0).map Message.role = some Role.user then some 0 else none
  | i + 1 =>
    if (messages.get? (i + 1)).map Message.role = some Role.user then some (i + 1)
    else findLastUserFrom messages i

/-- The search for the last user message strictly before `messageIndex`;
`none` when `messageIndex` is 0 or no user message precedes it. -/
def findLastUserBefore (messages : List Message) (messageIndex : Nat) : Option Nat :=
  match messageIndex with
  | 0 => none
  | j + 1 => findLastUserFrom messages j

/-- `handleRegenerate(messageIndex)`: guard on an in-flight submission;
find the nearest preceding user message (bailing out when there is none);
truncate the log through it; check the API key; reissue the model request
from the truncated log; on success append the new assistant message and,
when a chat is active and the save returns an identifier, patch the
identifier map (delete the superseded entry, set the new one); on failure
leave the truncated log as-is. -/
def handleRegenerate (s : ChatState) (messageIndex : Nat) (env : RegenEnv) :
    ChatState × List Effect :=
  if s.isLoading then (s, [])
  else
    match findLastUserBefore s.messages messageIndex with
    | none => ({ s with isLoading := false }, [])
    | some lastUserMsgIndex =>
      let messagesBeforeLast := s.messages.take (lastUserMsgIndex + 1)
      let s1 := { s with messages := messagesBeforeLast, isLoading := true }
      if (jsTrim env.apiKey).isEmpty then
        ({ s1 with isLoading := false }, [])
      else
        let effs := [Effect.modelRequest (messagesBeforeLast.map toModelTurn)]
        match env.modelResult with
        | Except.error _ => ({ s1 with isLoading := false }, effs)
        | Except.ok candidateText =>
          let aiResponse := extractAiResponse candidateText
          let assistantMessageIndex := messagesBeforeLast.length
          let finalMessages := messagesBeforeLast ++ [{ id := none, role := Role.assistant, content := aiResponse }]
          let s2 := { s1 with messages := finalMessages }
          if jsTruthy s.currentChatId then
            let effs := effs ++ [Effect.insertMessage Role.assistant aiResponse]
            let s3 :=
              match env.saveAssistantResult with
              | none => s2
              | some aid =>
                if aid.isEmpty then s2
                else
                  { s2 with messageIds :=
                      mapSet (mapDelete s2.messageIds messageIndex) assistantMessageIndex aid }
            ({ s3 with isLoading := false }, effs)
          else
            ({ s2 with isLoading := false }, effs)

/-- A persisted three-message log: the greeting (never persisted) followed
by a persisted user/assistant exchange. -/
def demoMessages : List Message :=
  [welcomeMessage,
   { id := some "u1", role := Role.user, content := "hello" },
   { id := some "a1", role := Role.assistant, content := "hi there" }]

/-- A loaded session over `demoMessages` with a consistent identifier map,
as `loadChatMessages` leaves it. -/
def demoState : ChatState :=
  { messages := demoMessages, input := "", isLoading := false,
    currentChatId := some "chat1", isSaving := false,
    messageIds := rebuildIds demoMessages, lastUserMessage := "" }

/-- Sixty `a` characters. -/
def sixtyA : String := "aaaaaaaaaaaaaaaaaaaaaaaaaaaaaaaaaaaaaaaaaaaaaaaaaaaaaaaaaaaa"

/-- Fifty `a` characters. -/
def fiftyA : String := "aaaaaaaaaaaaaaaaaaaaaaaaaaaaaaaaaaaaaaaaaaaaaaaaaa"

/-- A state reached while a submission is in flight after the optimistic
user message at position 1 has been spliced out again by a concurrent
delete: only the greeting remains when the persistence write completes. -/
def spliceRaceState : ChatState :=
  { messages := [welcomeMessage], input := "", isLoading := true,
    currentChatId := some "chat1", isSaving := false,
    messageIds := emptyIdMap, lastUserMessage := "draft a letter" }

/-- A log with two consecutive assistant messages at the end, as produced
by deleting a user turn between two exchanges. -/
def staleLogState : ChatState :=
  { messages := [welcomeMessage,
      { id := some "u1", role := Role.user, content := "question" },
      { id := some "a1", role := Role.assistant, content := "first answer" },
      { id := some "a2", role := Role.assistant, content := "second answer" }],
    input := "", isLoading := false, currentChatId := some "chat1",
    isSaving := false, messageIds := emptyIdMap, lastUserMessage := "" }

/-- A regenerate environment where the model call succeeds. -/
def regenEnvOk : RegenEnv :=
  { apiKey := "k", modelResult := Except.ok (some "second answer"),
    saveAssistantResult := some "a2" }

/-- A fresh draft session: greeting only, no identifier bound. -/
def freshState : ChatState :=
  { messages := [welcomeMessage], input := "", isLoading := false,
    currentChatId := none, isSaving := false, messageIds := emptyIdMap,
    lastUserMessage := "" }

/-- A loaded session with pending input text. -/
def submitStateW : ChatState :=
  { demoState with input := "Draft a cover letter please" }

/-- A submit environment where every remote call succeeds. -/
def submitEnvW : SubmitEnv :=
  { createChatResult := Except.ok "chat9", apiKey := "k",
    saveUserResult := some "u9",
    modelResult := Except.ok (some "Sure, here is a draft."),
    saveAssistantResult := some "a9" }

/-- A state with a submission already in flight. -/
def loadingState : ChatState :=
  { demoState with isLoading := true, input := "pending question" }

theorem getLast_append_singleton {α : Type} (l : List α) (a : α) :
    (l ++ [a]).getLast? = some a := by
  simp

theorem reconcileMessageId_messages (s : ChatState) (index : Nat) (savedId : Option String) :
    (reconcileMessageId s index savedId).messages = s.messages := by
  cases savedId with
  | none => rfl
  | some mid =>
    by_cases h : mid.isEmpty = true <;> simp [reconcileMessageId, h]

theorem reconcileMessageId_isLoading (s : ChatState) (index : Nat) (savedId : Option String) :
    (reconcileMessageId s index savedId).isLoading = s.isLoading := by
  cases savedId with
  | none => rfl
  | some mid =>
    by_cases h : mid.isEmpty = true <;> simp [reconcileMessageId, h]

theorem fetchWithRetryGo_delays_le (attempt : Nat → FetchResult) (retries : Nat) :
    ∀ fuel i delays, ((fetchWithRetryGo attempt retries fuel i delays).2).sum
      ≤ delays.sum + (2 ^ (retries - 1) - 2 ^ i) * 1000 := by
  intro fuel
  induction fuel with
  | zero =>
    intro i delays
    simp [fetchWithRetryGo]
  | succ n ih =>
    intro i delays
    by_cases hi : i < retries
    · cases ha : attempt i with
      | resp status =>
        by_cases hc : (retryableStatus status && decide (i < retries - 1)) = true
        · have hlt : i < retries - 1 :=
            of_decide_eq_true ((Bool.and_eq_true _ _).mp hc).2
          have h2 : (2 : Nat) ^ (i + 1) ≤ 2 ^ (retries - 1) :=
            Nat.pow_le_pow_right (by norm_num) (by omega)
          have h3 : (2 : Nat) ^ (i + 1) = 2 * 2 ^ i := by
            rw [pow_succ]; ring
          have h4 : (1 : Nat) ≤ 2 ^ i := Nat.one_le_two_pow
          have hrec := ih (i + 1) (delays ++ [2 ^ i * 1000])
          rw [List.sum_append] at hrec
          simp only [fetchWithRetryGo, hi, if_true, ha, hc, List.sum_cons, List.sum_nil] at hrec ⊢
          omega
        · simp only [fetchWithRetryGo, hi, if_true, ha, hc, if_false, Bool.false_eq_true]
          omega
      | err msg =>
        by_cases he : (i == retries - 1) = true
        · simp only [fetchWithRetryGo, hi, if_true, ha, he]
          omega
        · by_cases ht : transientTransportError msg = true
          · have hne : i ≠ retries - 1 := by
              intro hcontra
              exact he (by simp [hcontra])
            have hlt : i < retries - 1 := by omega
            have h2 : (2 : Nat) ^ (i + 1) ≤ 2 ^ (retries - 1) :=
              Nat.pow_le_pow_right (by norm_num) (by omega)
            have h3 : (2 : Nat) ^ (i + 1) = 2 * 2 ^ i := by
              rw [pow_succ]; ring
            have h4 : (1 : Nat) ≤ 2 ^ i := Nat.one_le_two_pow
            have hrec := ih (i + 1) (delays ++ [2 ^ i * 1000])
            rw [List.sum_append] at hrec
            simp only [fetchWithRetryGo, hi, if_true, ha, he, ht, List.sum_cons,
              List.sum_nil, Bool.false_eq_true, if_false] at hrec ⊢
            omega
          · simp only [fetchWithRetryGo, hi, if_true, ha, he, ht, Bool.false_eq_true, if_false]
            omega
    · simp only [fetchWithRetryGo, hi, if_false]
      omega

theorem handleRegenerate_messages_ok (s : ChatState) (p j : Nat) (env : RegenEnv)
    (ct : Option String)
    (hload : s.isLoading = false)
    (hfind : findLastUserBefore s.messages p = some j)
    (hkey : (jsTrim env.apiKey).isEmpty = false)
    (hmodel : env.modelResult = Except.ok ct) :
    ((handleRegenerate s p env).1).messages
      = s.messages.take (j + 1)
        ++ [{ id := none, role := Role.assistant, content := extractAiResponse ct }] := by
  unfold handleRegenerate
  rw [hload]
  simp only [Bool.false_eq_true, if_false, hfind, hkey, hmodel]
  cases hcid : jsTruthy s.currentChatId with
  | false => simp
  | true =>
    cases hsave : env.saveAssistantResult with
    | none => simp
    | some aid =>
      by_cases hemp : aid.isEmpty = true <;> simp [hemp]

theorem handleRegenerate_messages_err (s : ChatState) (p j : Nat) (env : RegenEnv)
    (e : String)
    (hload : s.isLoading = false)
    (hfind : findLastUserBefore s.messages p = some j)
    (hkey : (jsTrim env.apiKey).isEmpty = false)
    (hmodel : env.modelResult = Except.error e) :
    ((handleRegenerate s p env).1).messages = s.messages.take (j + 1) := by
  unfold handleRegenerate
  rw [hload]
  simp only [Bool.false_eq_true, if_false, hfind, hkey, hmodel]

theorem handleSubmit_messages_ok (s : ChatState) (env : SubmitEnv) (cid : String)
    (ct : Option String)
    (hin : (jsTrim s.input).isEmpty = false)
    (hload : s.isLoading = false)
    (hcid : s.currentChatId = some cid)
    (hkey : (jsTrim env.apiKey).isEmpty = false)
    (hmodel : env.modelResult = Except.ok ct) :
    ((handleSubmit s env).1).messages
      = (s.messages ++ [{ id := none, role := Role.user, content := jsTrim s.input }])
        ++ [{ id := none, role := Role.assistant, content := extractAiResponse ct }] := by
  unfold handleSubmit
  rw [hin, hload, hcid]
  unfold handleSubmitCore
  rw [hkey, hmodel]
  simp only [Bool.false_eq_true, if_false, Bool.or_self]
  cases hsave : env.saveUserResult with
  | none =>
    cases hsave2 : env.saveAssistantResult with
    | none => simp [reconcileMessageId]
    | some aid =>
      by_cases hemp : aid.isEmpty = true <;> simp [reconcileMessageId, hemp]
  | some uid =>
    by_cases hemp : uid.isEmpty = true <;>
    · cases hsave2 : env.saveAssistantResult with
      | none => simp [reconcileMessageId, hemp]
      | some aid =>
        by_cases hemp2 : aid.isEmpty = true <;> simp [reconcileMessageId, hemp, hemp2]

/-- Claim C1: with `retries = 3`, the response sequence `[503, 503, 200]`
produces exactly two backoff sleeps of 1000 ms and 2000 ms and surfaces the
`200` response, and the sequence `[503, 503, 503]` produces the same two
sleeps and surfaces the third `503` as an ordinary return value
(`Except.ok`), not as a thrown error. -/
theorem retry_backoff_sequences :
    fetchWithRetry (fun i => FetchResult.resp ([503, 503, 200].getD i 0)) 3
      = (Except.ok 200, [1000, 2000])
    ∧ fetchWithRetry (fun _ => FetchResult.resp 503) 3
      = (Except.ok 503, [1000, 2000]) :=
  ⟨rfl, rfl⟩

/-- Claim C7, counterexample: no run of `fetchWithRetry` with `retries = 3`
can accumulate 7000 ms (7 s) of backoff sleeping — with three attempts
only the two delays `2^0` s and `2^1` s are ever slept, so the claimed
worst case `1 + 2 + 4 = 7` seconds is unreachable. -/
theorem retry_total_backoff_never_7s :
    ¬ ∃ attempt : Nat → FetchResult, ((fetchWithRetry attempt 3).2).sum = 7000 := by
  rintro ⟨a, h⟩
  have hb := fetchWithRetryGo_delays_le a 3 3 0 []
  unfold fetchWithRetry at h
  norm_num at hb
  omega

/-- Claim C7, amended: for every execution of the retry client with 3
attempts the total backoff waiting is bounded by 1 + 2 = 3 seconds, and a
maximal run (three retryable responses) attains exactly 3000 ms. -/
theorem retry_total_backoff_3s :
    (∀ attempt : Nat → FetchResult, ((fetchWithRetry attempt 3).2).sum ≤ 3000)
    ∧ ((fetchWithRetry (fun _ => FetchResult.resp 503) 3).2).sum = 3000 := by
  constructor
  · intro a
    have hb := fetchWithRetryGo_delays_le a 3 3 0 []
    unfold fetchWithRetry
    norm_num at hb
    omega
  · rfl

/-- Claim C4, counterexample: the source appends the three-character ASCII
string `"..."` to a truncated title, not the single ellipsis character `…`:
sixty `a` characters do not yield fifty `a` characters followed by `…`. -/
theorem title_ellipsis_counterexample :
    sixtyA.length = 60
    ∧ deriveTitle sixtyA ≠ fiftyA ++ "…"
    ∧ deriveTitle sixtyA = fiftyA ++ "..." := by
  refine ⟨rfl, ?_, rfl⟩
  decide

/-- Claim C4, amended: an input of at most 50 characters is unchanged; a
longer input is truncated to its first 50 characters with the
three-character string `"..."` (not `…`) appended — so a 60-character input
yields a 53-character title. -/
theorem title_truncation_amended (s : String) :
    (s.length ≤ 50 → deriveTitle s = s)
    ∧ (50 < s.length → deriveTitle s = String.mk (s.data.take 50) ++ "...")
    ∧ (50 < s.length → (deriveTitle s).length = 53) := by
  refine ⟨?_, ?_, ?_⟩
  · intro h
    unfold deriveTitle
    rw [if_neg (by omega)]
  · intro h
    unfold deriveTitle
    rw [if_pos h]
  · intro h
    unfold deriveTitle
    rw [if_pos h]
    have hlen : (String.mk (s.data.take 50)).length = 50 := by
      show (s.data.take 50).length = 50
      have : s.data.length = s.length := rfl
      rw [List.length_take]
      omega
    rw [String.length_append, hlen]
    rfl

/-- Claim C4, witness: the amended truncation rule at the concrete inputs
`"hello"` (unchanged) and sixty `a` characters (truncated plus `"..."`). -/
theorem title_truncation_amended_witness :
    deriveTitle "hello" = "hello"
    ∧ deriveTitle sixtyA = String.mk (sixtyA.data.take 50) ++ "..."
    ∧ (deriveTitle sixtyA).length = 53 :=
  ⟨(title_truncation_amended "hello").1 (by decide),
   (title_truncation_amended sixtyA).2.1 (by decide),
   (title_truncation_amended sixtyA).2.2 (by decide)⟩

/-- Claim C2, counterexample: deleting the greeting (position 0, no
persisted identifier) splices the message sequence but leaves `messageIds`
untouched instead of rebuilding it, so afterwards position 1 still maps to
the user message identifier `"u1"` although the message now at position 1
is the assistant message with identifier `"a1"` — a stale
position-to-identifier association survives the splice. -/
theorem delete_without_id_leaves_stale_map :
    demoState.messageIds 0 = none
    ∧ ((handleDeleteMessage demoState 0 true).1).messageIds 1 = some "u1"
    ∧ rebuildIds ((handleDeleteMessage demoState 0 true).1).messages 1 = some "a1"
    ∧ ((handleDeleteMessage demoState 0 true).1).messageIds 1
        ≠ rebuildIds ((handleDeleteMessage demoState 0 true).1).messages 1 := by
  refine ⟨rfl, rfl, rfl, ?_⟩
  decide

/-- Claim C2, amended: only the delete of a message whose position has a
known (truthy) persisted identifier rebuilds the position-to-identifier map
from the spliced sequence — after such a delete succeeds remotely, the map
equals the rebuild of the resulting message list, holding an entry at a
position exactly when the message there carries an identifier. A delete at
a position with no identifier, and the regenerate paths, do not rebuild the
map, so stale associations can survive those splices. -/
theorem delete_with_id_rebuilds_map (s : ChatState) (index : Nat)
    (hid : jsTruthy (s.messageIds index) = true) :
    ((handleDeleteMessage s index true).1).messageIds
      = rebuildIds ((handleDeleteMessage s index true).1).messages := by
  cases h : s.messageIds index with
  | none => rw [h] at hid; simp [jsTruthy] at hid
  | some mid =>
    have hmid : mid.isEmpty = false := by
      rw [h] at hid
      simpa [jsTruthy] using hid
    simp [handleDeleteMessage, h, hmid]

/-- Claim C2, witness: the amended rebuild invariant at the concrete loaded
session `demoState`, deleting position 1 (which holds identifier `"u1"`). -/
theorem delete_with_id_rebuilds_map_witness :
    ((handleDeleteMessage demoState 1 true).1).messageIds
      = rebuildIds ((handleDeleteMessage demoState 1 true).1).messages :=
  delete_with_id_rebuilds_map demoState 1 (by decide)

/-- Claim C3: deleting a message whose position has a known persisted
identifier attempts the remote delete; if the remote delete fails the
entire local state — message sequence and position-to-identifier map
included — is returned unchanged, and only on remote success is the message
spliced out locally and the map rebuilt from the spliced sequence. -/
theorem delete_remote_failure_preserves_state (s : ChatState) (index : Nat)
    (hid : jsTruthy (s.messageIds index) = true) :
    handleDeleteMessage s index false
      = (s, [Effect.remoteDelete ((s.messageIds index).getD "")])
    ∧ ((handleDeleteMessage s index true).1).messages = removeAt s.messages index
    ∧ ((handleDeleteMessage s index true).1).messageIds
        = rebuildIds (removeAt s.messages index) := by
  cases h : s.messageIds index with
  | none => rw [h] at hid; simp [jsTruthy] at hid
  | some mid =>
    have hmid : mid.isEmpty = false := by
      rw [h] at hid
      simpa [jsTruthy] using hid
    refine ⟨?_, ?_, ?_⟩ <;> simp [handleDeleteMessage, h, hmid]

/-- Claim C3, witness: the delete contract at the concrete loaded session
`demoState`, position 1 (identifier `"u1"`). -/
theorem delete_remote_failure_preserves_state_witness :
    handleDeleteMessage demoState 1 false = (demoState, [Effect.remoteDelete "u1"])
    ∧ ((handleDeleteMessage demoState 1 true).1).messages = removeAt demoState.messages 1
    ∧ ((handleDeleteMessage demoState 1 true).1).messageIds
        = rebuildIds (removeAt demoState.messages 1) :=
  delete_remote_failure_preserves_state demoState 1 (by decide)

/-- Claim C5, counterexample: the reconciliation step installs the
server-assigned identifier at the recorded position without checking that a
message still exists there — in `spliceRaceState` the optimistic user
message at position 1 has already been spliced out by a concurrent delete
(only the greeting remains), yet reconciling position 1 with `"m42"`
installs the stale association anyway. -/
theorem reconcile_no_existence_check :
    spliceRaceState.messages.get? 1 = none
    ∧ (reconcileMessageId spliceRaceState 1 (some "m42")).messageIds 1 = some "m42" := by
  exact ⟨rfl, rfl⟩

/-- Claim C5, amended: reconciliation attaches the identifier at the
recorded position whenever the persistence write returns a non-empty
identifier, unconditionally — there is no guard on whether a message still
exists at that position, so a concurrent delete or regenerate can leave a
stale position-to-identifier association installed. Only the map changes;
the message sequence is untouched. -/
theorem reconcile_sets_id_unconditionally (s : ChatState) (index : Nat) (mid : String)
    (hmid : mid.isEmpty = false) :
    (reconcileMessageId s index (some mid)).messageIds index = some mid
    ∧ (reconcileMessageId s index (some mid)).messages = s.messages := by
  simp [reconcileMessageId, hmid, mapSet]

/-- Claim C5, witness: unconditional installation at the concrete raced
state `spliceRaceState`, position 1, identifier `"m42"`. -/
theorem reconcile_sets_id_unconditionally_witness :
    (reconcileMessageId spliceRaceState 1 (some "m42")).messageIds 1 = some "m42"
    ∧ (reconcileMessageId spliceRaceState 1 (some "m42")).messages
        = spliceRaceState.messages :=
  reconcile_sets_id_unconditionally spliceRaceState 1 "m42" (by decide)

/-- Claim C6, counterexample: in a log with two consecutive assistant
messages (reachable by deleting a user turn between two exchanges),
regenerating the assistant message at position 3 truncates through the
nearest preceding user message at position 1 — not to length 3 — so after a
successful model call the log has length 3, not the claimed `p + 1 = 4`. -/
theorem regenerate_truncation_counterexample :
    (staleLogState.messages.get? 3).map Message.role = some Role.assistant
    ∧ findLastUserBefore staleLogState.messages 3 = some 1
    ∧ ((handleRegenerate staleLogState 3 regenEnvOk).1).messages.length = 3
    ∧ ((handleRegenerate staleLogState 3 regenEnvOk).1).messages.length ≠ 3 + 1 := by
  refine ⟨rfl, rfl, rfl, ?_⟩
  decide

/-- Claim C6, amended: when the nearest preceding user message of the
assistant message at position `p` sits immediately before it (at `p - 1`),
regenerate truncates the log to length `p` (everything through that user
message); a successful model call then leaves a log of length `p + 1` with
the new assistant message appended last, and a failed model call leaves the
truncated log of length `p` with nothing appended — the superseded
assistant message is not restored. -/
theorem regenerate_truncates_to_preceding_user (s : ChatState) (p j : Nat)
    (env : RegenEnv)
    (hload : s.isLoading = false)
    (hrole : (s.messages.get? p).map Message.role = some Role.assistant)
    (hfind : findLastUserBefore s.messages p = some j)
    (hj : j + 1 = p)
    (hkey : (jsTrim env.apiKey).isEmpty = false) :
    match env.modelResult with
    | Except.ok ct =>
        ((handleRegenerate s p env).1).messages
          = s.messages.take p
            ++ [{ id := none, role := Role.assistant, content := extractAiResponse ct }]
        ∧ ((handleRegenerate s p env).1).messages.length = p + 1
    | Except.error _ =>
        ((handleRegenerate s p env).1).messages = s.messages.take p
        ∧ ((handleRegenerate s p env).1).messages.length = p := by
  have hp : p < s.messages.length := by
    by_contra hnp
    rw [List.get?_eq_none.mpr (by omega)] at hrole
    simp at hrole
  have htake : (s.messages.take p).length = p := by
    rw [List.length_take]
    omega
  cases hm : env.modelResult with
  | ok ct =>
    have hmsg := handleRegenerate_messages_ok s p j env ct hload hfind hkey hm
    rw [hj] at hmsg
    refine ⟨hmsg, ?_⟩
    rw [hmsg, List.length_append, htake]
    rfl
  | error e =>
    have hmsg := handleRegenerate_messages_err s p j env e hload hfind hkey hm
    rw [hj] at hmsg
    exact ⟨hmsg, by rw [hmsg, htake]⟩

/-- Claim C6, witness: the amended regenerate contract at the concrete
loaded session `demoState` (greeting, user at 1, assistant at 2),
regenerating position 2 with a successful model call. -/
theorem regenerate_truncates_to_preceding_user_witness :
    ((handleRegenerate demoState 2 regenEnvOk).1).messages
      = demoState.messages.take 2
        ++ [{ id := none, role := Role.assistant,
              content := extractAiResponse (some "second answer") }]
    ∧ ((handleRegenerate demoState 2 regenEnvOk).1).messages.length = 2 + 1 :=
  regenerate_truncates_to_preceding_user demoState 2 1 regenEnvOk rfl rfl rfl rfl
    (by decide)

/-- Claim C8: regenerating a position with no preceding user message (for
example the synthetic greeting at position 0) is a no-op on the
conversation state — the whole state, message sequence,
position-to-identifier map and active session identifier included, is
unchanged, and no remote call (in particular no model request) is issued. -/
theorem regenerate_without_user_is_noop (s : ChatState) (p : Nat) (env : RegenEnv)
    (hload : s.isLoading = false)
    (hfind : findLastUserBefore s.messages p = none) :
    handleRegenerate s p env = (s, []) := by
  cases s with
  | mk msgs inp load cid sav ids last =>
    simp only [handleRegenerate] at *
    simp_all

/-- Claim C8, witness: regenerating the greeting at position 0 of a fresh
session leaves the state untouched and issues nothing. -/
theorem regenerate_without_user_is_noop_witness :
    handleRegenerate freshState 0 regenEnvOk = (freshState, []) :=
  regenerate_without_user_is_noop freshState 0 regenEnvOk rfl rfl

/-- Claim C9: on a successful model call, the assistant message appended
last to the log carries the fixed fallback string exactly when the response
lacks a usable candidate text (absent, or present but the empty string),
and otherwise carries the first candidate text verbatim — in both the
submit path and the regenerate path. -/
theorem model_response_fallback_text (s : ChatState) (env : SubmitEnv) (cid : String)
    (ct : Option String) (sr : ChatState) (renv : RegenEnv) (p j : Nat)
    (hin : (jsTrim s.input).isEmpty = false)
    (hload : s.isLoading = false)
    (hcid : s.currentChatId = some cid)
    (hkey : (jsTrim env.apiKey).isEmpty = false)
    (hmodel : env.modelResult = Except.ok ct)
    (hrload : sr.isLoading = false)
    (hrfind : findLastUserBefore sr.messages p = some j)
    (hrkey : (jsTrim renv.apiKey).isEmpty = false)
    (hrmodel : renv.modelResult = Except.ok ct) :
    ((handleSubmit s env).1).messages.getLast?
      = some { id := none, role := Role.assistant,
               content := if ct = none ∨ ct = some "" then FALLBACK_RESPONSE
                          else ct.getD "" }
    ∧ ((handleRegenerate sr p renv).1).messages.getLast?
      = some { id := none, role := Role.assistant,
               content := if ct = none ∨ ct = some "" then FALLBACK_RESPONSE
                          else ct.getD "" } := by
  have hextract : extractAiResponse ct
      = if ct = none ∨ ct = some "" then FALLBACK_RESPONSE else ct.getD "" := by
    cases ct with
    | none => simp [extractAiResponse]
    | some t =>
      by_cases ht : t = ""
      · have hev : ("" : String).isEmpty = true := rfl
        subst ht
        simp [extractAiResponse, hev]
      · have htf : t.isEmpty = false := by
          rw [Bool.eq_false_iff]
          intro hcontra
          exact ht ((String.isEmpty_iff t).mp hcontra)
        simp [extractAiResponse, htf, ht]
  constructor
  · rw [handleSubmit_messages_ok s env cid ct hin hload hcid hkey hmodel,
      getLast_append_singleton, hextract]
  · rw [handleRegenerate_messages_ok sr p j renv ct hrload hrfind hrkey hrmodel,
      getLast_append_singleton, hextract]

/-- Claim C9, witness: the appended assistant text at concrete states — a
submit over `submitStateW` and a regenerate over `demoState`, both with
candidate text present and non-empty, so the verbatim branch applies. -/
theorem model_response_fallback_text_witness :
    ((handleSubmit submitStateW
        { submitEnvW with modelResult := Except.ok (some "second answer") }).1).messages.getLast?
      = some { id := none, role := Role.assistant,
               content := if (some "second answer" : Option String) = none
                            ∨ (some "second answer" : Option String) = some ""
                          then FALLBACK_RESPONSE
                          else (some "second answer" : Option String).getD "" }
    ∧ ((handleRegenerate demoState 2 regenEnvOk).1).messages.getLast?
      = some { id := none, role := Role.assistant,
               content := if (some "second answer" : Option String) = none
                            ∨ (some "second answer" : Option String) = some ""
                          then FALLBACK_RESPONSE
                          else (some "second answer" : Option String).getD "" } :=
  model_response_fallback_text submitStateW
    { submitEnvW with modelResult := Except.ok (some "second answer") } "chat1"
    (some "second answer") demoState regenEnvOk 2 1
    (by decide) rfl rfl (by decide) rfl rfl rfl (by decide) rfl

/-- Claim C10: a `handleSubmit` invocation while a previous submission is
still in flight (`isLoading`), or while the trimmed input is empty, is a
complete no-op — the state is returned unchanged and no remote call of any
kind is issued. -/
theorem submit_guard_is_noop (s : ChatState) (env : SubmitEnv)
    (h : s.isLoading = true ∨ (jsTrim s.input).isEmpty = true) :
    handleSubmit s env = (s, []) := by
  unfold handleSubmit
  rcases h with h | h <;> simp [h]

/-- Claim C10, witness: the guard at the concrete in-flight state
`loadingState` (non-empty input, `isLoading = true`). -/
theorem submit_guard_is_noop_witness :
    handleSubmit loadingState submitEnvW = (loadingState, []) :=
  submit_guard_is_noop loadingState submitEnvW (Or.inl rfl)
